import Mathlib

/-!
# logplease (`src/index.js`): level filter, message assembly, sink dispatch

A shallow embedding of the logger module.  Module-level variables
(`isNodejs`, `GlobalLogLevel`, `GlobalLogfile`, `Colors`) are the fields of
`Globals`; a `Logger` carries `category`, `options` and the lazily assigned
`fileWriter`.  Calls into the host (`fs.openSync`, `fs.writeSync`,
`console.log`, `console.error`, `GlobalEvents.emit`, `fetch`) are recorded, in
program order, as a list of `Effect`s.  What the host hands back during a call
(the descriptor returned by `fs.openSync`, the clock readings) is the input
`Readings`; exceptions thrown by the host are outside the model; the library functions `String.prototype.toUpperCase` and
`util.format` are the parameter `Builtins`.
-/

namespace Logplease

/-! ## Values and host interface -/

/-- JavaScript values, as far as the logger tells them apart. -/
inductive Value where
  | undefined
  | null
  | bool (b : Bool)
  | num (n : Int)
  | str (s : String)
  deriving DecidableEq, Repr

/-- Rendering of a value inside a template literal (integers only for numbers). -/
def Value.template : Value → String
  | .undefined => "undefined"
  | .null => "null"
  | .bool true => "true"
  | .bool false => "false"
  | .num n => toString n
  | .str s => s

/-- Library functions of the host the module calls: `String.prototype.toUpperCase`
and `util.format`. -/
structure Builtins where
  toUpperCase : String → String
  format : List Value → String

/-- Ambient variables read by `_shouldLog`: `process.env.LOG` (`none` when `process`,
`process.env` or the variable is undefined) and `window.LOG` (`none` when `window` or
the variable is undefined). -/
structure Env where
  processLOG : Option String
  windowLOG : Option String
  deriving DecidableEq, Repr

/-- What the host returns during one `_write`: the descriptor `fs.openSync` yields if it
is called, the two readings of `new Date().toISOString()` (one per `_createLogMessage`
call) and the reading of `Date.now()`. -/
structure Readings where
  fd : Nat
  isoRaw : String
  isoDisplay : String
  nowMs : Nat
  deriving DecidableEq, Repr

/-- Truthiness of a string. -/
def truthyStr (s : String) : Bool := s != ""

/-- Truthiness of a value that is `null`/`undefined` (`none`) or a string. -/
def truthyOpt : Option String → Bool
  | some s => truthyStr s
  | none => false

/-- The expression `a || b` on values that are `null`/`undefined` or strings. -/
def orOpt (a b : Option String) : Option String :=
  if truthyOpt a then a else b

/-- The expression `x || d` where `x` is an optional string argument and `d` a literal. -/
def orDefault (x : Option String) (d : String) : String :=
  match x with
  | some s => if truthyStr s then s else d
  | none => d

/-- Truthiness of `this.fileWriter`: `undefined` before the first open, then the number
returned by `fs.openSync`. -/
def truthyFd : Option Nat → Bool
  | some n => n != 0
  | none => false

/-! ## Module-level constants and state -/

/-- The constant `LogLevels.DEBUG`. -/
def DEBUG : String := "DEBUG"
/-- The constant `LogLevels.INFO`. -/
def INFO : String := "INFO"
/-- The constant `LogLevels.WARN`. -/
def WARN : String := "WARN"
/-- The constant `LogLevels.ERROR`. -/
def ERROR : String := "ERROR"
/-- The constant `LogLevels.NONE`. -/
def NONE : String := "NONE"

/-- The object literal `LogLevels`, as key/value pairs in insertion order. -/
def LogLevels : List (String × String) :=
  [("DEBUG", DEBUG), ("INFO", INFO), ("WARN", WARN), ("ERROR", ERROR), ("NONE", NONE)]

/-- The array `Object.keys(LogLevels).map(f => LogLevels[f])`. -/
def levels : List String :=
  (LogLevels.map Prod.fst).filterMap (fun f => LogLevels.lookup f)

/-- Search of `Array.prototype.indexOf` scanning from position `i`: strict equality, `-1` when absent. -/
def indexOfFrom : List String → Value → Int → Int
  | [], _, _ => -1
  | x :: rest, v, i => if Value.str x = v then i else indexOfFrom rest v (i + 1)

/-- The call `xs.indexOf(v)`. -/
def indexOf (xs : List String) (v : Value) : Int := indexOfFrom xs v 0

/-- Array indexing `xs[i]`, `undefined` outside the array. -/
def arrayGet (xs : List Value) (i : Int) : Value :=
  if i < 0 then Value.undefined else (xs.get? i.toNat).getD Value.undefined

/-- The `Colors` table. -/
structure ColorTable where
  Black : Value
  Red : Value
  Green : Value
  Yellow : Value
  Blue : Value
  Magenta : Value
  Cyan : Value
  Grey : Value
  White : Value
  Default : Value
  deriving DecidableEq, Repr

/-- ANSI colors. -/
def ansiColors : ColorTable :=
  { Black := .num 0, Red := .num 1, Green := .num 2, Yellow := .num 3, Blue := .num 4,
    Magenta := .num 5, Cyan := .num 6, Grey := .num 7, White := .num 9, Default := .num 9 }

/-- CSS colors. -/
def cssColors : ColorTable :=
  { Black := .str "Black", Red := .str "IndianRed", Green := .str "LimeGreen",
    Yellow := .str "Orange", Blue := .str "RoyalBlue", Magenta := .str "Orchid",
    Cyan := .str "SkyBlue", Grey := .str "DimGrey", White := .str "White",
    Default := .str "Black" }

/-- The module-level variables. `Colors` is fixed when the module is loaded. -/
structure Globals where
  isNodejs : Bool
  GlobalLogLevel : Value
  GlobalLogfile : Option String
  Colors : ColorTable
  deriving DecidableEq, Repr

/-- Module load: `isNodejs = !!process.version`, `GlobalLogLevel = LogLevels.DEBUG`,
`GlobalLogfile = null`, and `Colors` replaced by the CSS table `if (!isNodejs)`. -/
def Globals.load (processVersion : Bool) : Globals :=
  { isNodejs := processVersion
    GlobalLogLevel := .str DEBUG
    GlobalLogfile := none
    Colors := if !processVersion then cssColors else ansiColors }

/-- The array `loglevelColors`. -/
def loglevelColors (g : Globals) : List Value :=
  [g.Colors.Cyan, g.Colors.Green, g.Colors.Yellow, g.Colors.Red, g.Colors.Default]

/-- Logger options; the flags are the truthiness of the option values. -/
structure Options where
  useColors : Bool
  color : Value
  showTimestamp : Bool
  showLevel : Bool
  filename : Option String
  appendFile : Bool
  useGraylog : Bool
  graylogUrl : Option String
  deriving DecidableEq, Repr

/-- The object `defaultOptions`; `filename` is the value of `GlobalLogfile` at load, `null`. -/
def defaultOptions (g : Globals) : Options :=
  { useColors := true
    color := g.Colors.Default
    showTimestamp := true
    showLevel := true
    filename := none
    appendFile := true
    useGraylog := false
    graylogUrl := none }

/-- The `options` argument of `create`: each key present (`some`) or absent. -/
structure PartialOptions where
  useColors : Option Bool
  color : Option Value
  showTimestamp : Option Bool
  showLevel : Option Bool
  filename : Option (Option String)
  appendFile : Option Bool
  useGraylog : Option Bool
  graylogUrl : Option (Option String)
  deriving DecidableEq, Repr

/-- The empty options object `{}`. -/
def PartialOptions.empty : PartialOptions :=
  { useColors := none, color := none, showTimestamp := none, showLevel := none,
    filename := none, appendFile := none, useGraylog := none, graylogUrl := none }

/-- A logger instance. `fileWriter` is `undefined` (`none`) until `_write` assigns it. -/
structure Logger where
  category : String
  options : Options
  fileWriter : Option Nat
  deriving DecidableEq, Repr

/-- The constructor, reached through `create(category, options)`:
`Object.assign(opts, defaultOptions); Object.assign(opts, options)`. -/
def create (g : Globals) (category : String) (options : PartialOptions) : Logger :=
  let d := defaultOptions g
  { category := category
    options :=
      { useColors := options.useColors.getD d.useColors
        color := options.color.getD d.color
        showTimestamp := options.showTimestamp.getD d.showTimestamp
        showLevel := options.showLevel.getD d.showLevel
        filename := options.filename.getD d.filename
        appendFile := options.appendFile.getD d.appendFile
        useGraylog := options.useGraylog.getD d.useGraylog
        graylogUrl := options.graylogUrl.getD d.graylogUrl }
    fileWriter := none }

/-! ## Effects -/

/-- A JSON field value of the Graylog payload. -/
inductive Json where
  | num (q : ℚ)
  | str (s : String)
  deriving DecidableEq

/-- The `init` object handed to `fetch`; `body` is the object given to `JSON.stringify`,
as its key/value pairs in insertion order. -/
structure FetchInit where
  method : String
  headers : List (String × String)
  mode : String
  cache : String
  body : List (String × Json)
  deriving DecidableEq

/-- The two console streams. -/
inductive Stream where
  | log
  | error
  deriving DecidableEq, Repr

/-- Calls into the host. -/
inductive Effect where
  | openSync (path : String) (flags : String)
  | writeSync (fd : Nat) (data : String)
  | fetch (url : Option String) (init : FetchInit)
  | console (stream : Stream) (args : List String)
  | emit (event : String) (category : String) (level : String) (text : String)
  deriving DecidableEq

/-! ## The logger -/

/-- The four decoration strings returned by `_format`. -/
structure Format where
  timestamp : String
  level : String
  category : String
  text : String
  deriving DecidableEq, Repr

/-- The local `logLevel` of `_shouldLog`: the upper-cased `process.env.LOG`, replaced by
the upper-cased `window.LOG` when that is truthy, `|| GlobalLogLevel`. -/
def logLevel (b : Builtins) (env : Env) (g : Globals) : Value :=
  let envLogLevel : Option String :=
    match env.processLOG with
    | some v => some (b.toUpperCase v)
    | none => none
  let envLogLevel : Option String :=
    match env.windowLOG with
    | some w => if truthyStr w then some (b.toUpperCase w) else envLogLevel
    | none => envLogLevel
  match envLogLevel with
  | some e => if truthyStr e then Value.str e else g.GlobalLogLevel
  | none => g.GlobalLogLevel

/-- Method `Logger._shouldLog(level)`. -/
def _shouldLog (b : Builtins) (env : Env) (g : Globals) (level : Value) : Bool :=
  let logLevel := logLevel b env g
  let index := indexOf levels level
  let levelIdx := indexOf levels logLevel
  decide (index ≥ levelIdx)

/-- Method `Logger._format(level, text)`; `text` is not used by the body. -/
def _format (g : Globals) (lg : Logger) (level : String) : Format :=
  let timestampFormat := ""
  let levelFormat := ""
  let categoryFormat := ""
  let textFormat := ": "
  if lg.options.useColors then
    let levelColor := indexOf levels (Value.str level)
    let categoryColor := lg.options.color
    if g.isNodejs then
      { timestamp :=
          if lg.options.showTimestamp then "\u001b[3" ++ g.Colors.Grey.template ++ "m"
          else timestampFormat
        level :=
          if lg.options.showLevel then
            "\u001b[3" ++ (arrayGet (loglevelColors g) levelColor).template ++ ";22m"
          else levelFormat
        category := "\u001b[3" ++ categoryColor.template ++ ";1m"
        text := "\u001b[0m: " }
    else
      { timestamp :=
          if lg.options.showTimestamp then "color:" ++ g.Colors.Grey.template
          else timestampFormat
        level :=
          if lg.options.showLevel then
            "color:" ++ (arrayGet (loglevelColors g) levelColor).template
          else levelFormat
        category := "color:" ++ categoryColor.template ++ "; font-weight: bold"
        text := textFormat }
  else
    { timestamp := timestampFormat, level := levelFormat, category := categoryFormat,
      text := textFormat }

/-- Method `Logger._createLogMessage(level, text, timestampFormat, levelFormat, categoryFormat,
textFormat)`; an omitted argument is `none`, and `iso` is what
`new Date().toISOString()` returns when the timestamp is shown. -/
def _createLogMessage (g : Globals) (lg : Logger) (iso : String) (level text : String)
    (timestampFormat levelFormat categoryFormat textFormat : Option String) : String :=
  let timestampFormat := orDefault timestampFormat ""
  let levelFormat := orDefault levelFormat ""
  let categoryFormat := orDefault categoryFormat ""
  let textFormat := orDefault textFormat ": "
  let markup : Bool := !g.isNodejs && lg.options.useColors
  let timestampFormat := if markup && lg.options.showTimestamp then "%c" else timestampFormat
  let levelFormat := if markup && lg.options.showLevel then "%c" else levelFormat
  let categoryFormat := if markup then "%c" else categoryFormat
  let textFormat := if markup then ": %c" else textFormat
  let result := ""
  let result := if lg.options.showTimestamp then result ++ (iso ++ " ") else result
  let result := timestampFormat ++ result
  let result :=
    if lg.options.showLevel then
      result ++ (levelFormat ++ "[" ++ level ++ "]"
        ++ (if level = INFO ∨ level = WARN then " " else "") ++ " ")
    else result
  let result := result ++ (categoryFormat ++ lg.category)
  let result := result ++ (textFormat ++ text)
  result

/-- The object literal built in `_write` for the Graylog relay. -/
def graylogData (level text : String) (nowMs : Nat) : List (String × Json) :=
  [("timestamp", Json.num ((nowMs : ℚ) / 1000)),
   ("short_message", Json.str text),
   ("long_message", Json.str text),
   ("hLevel", Json.str level)]

/-- Method `Logger._sendToGraylog(data)`: the `fetch` call (the response handler runs later and
is outside the model). -/
def _sendToGraylog (lg : Logger) (data : List (String × Json)) : Effect :=
  Effect.fetch lg.options.graylogUrl
    { method := "POST"
      headers := [("Content-Type", "application/json")]
      mode := "cors"
      cache := "default"
      body := data }

/-- The console call of the markup branch of `_write`: the display text followed by the
style arguments selected by `showTimestamp` and `showLevel`. -/
def markupArgs (lg : Logger) (formattedText : String) (format : Format) : List String :=
  if lg.options.showTimestamp && lg.options.showLevel then
    [formattedText, format.timestamp, format.level, format.category, format.text]
  else if lg.options.showTimestamp && !lg.options.showLevel then
    [formattedText, format.timestamp, format.category, format.text]
  else if !lg.options.showTimestamp && lg.options.showLevel then
    [formattedText, format.level, format.category, format.text]
  else
    [formattedText, format.category, format.text]

/-- The local `unformattedText` of `_write`: `this._createLogMessage(level, text)`. -/
def unformattedText (g : Globals) (lg : Logger) (level text : String) (r : Readings) : String :=
  _createLogMessage g lg r.isoRaw level text none none none none

/-- The local `formattedText` of `_write`: `this._createLogMessage(level, text,
format.timestamp, format.level, format.category, format.text)`. -/
def formattedText (g : Globals) (lg : Logger) (level text : String) (r : Readings) : String :=
  let format := _format g lg level
  _createLogMessage g lg r.isoDisplay level text (some format.timestamp)
    (some format.level) (some format.category) (some format.text)

/-- Method `Logger._write(level, text)`: the logger afterwards and the host calls made, in order. -/
def _write (g : Globals) (lg : Logger) (level text : String) (r : Readings) :
    Logger × List Effect :=
  let path := orOpt lg.options.filename g.GlobalLogfile
  let opens : Bool := truthyOpt path && !truthyFd lg.fileWriter && g.isNodejs
  let opened : List Effect :=
    if opens then
      [Effect.openSync (path.getD "") (if lg.options.appendFile then "a+" else "w+")]
    else []
  let lg := if opens then { lg with fileWriter := some r.fd } else lg
  let format := _format g lg level
  let unformattedText := unformattedText g lg level text r
  let formattedText := formattedText g lg level text r
  let relayed : List Effect :=
    if lg.options.useGraylog then [_sendToGraylog lg (graylogData level text r.nowMs)]
    else []
  let filed : List Effect :=
    if truthyFd lg.fileWriter && g.isNodejs then
      [Effect.writeSync (lg.fileWriter.getD 0) (unformattedText ++ "\n")]
    else []
  let shown : List Effect :=
    if g.isNodejs || !lg.options.useColors then
      [Effect.console Stream.log [formattedText],
       Effect.emit "data" lg.category level text]
    else if level = ERROR then
      [Effect.console Stream.error (markupArgs lg formattedText format)]
    else
      [Effect.console Stream.log (markupArgs lg formattedText format)]
  (lg, opened ++ relayed ++ filed ++ shown)

/-- Method `Logger.debug(...arguments)`. -/
def debug (b : Builtins) (env : Env) (g : Globals) (lg : Logger) (args : List Value)
    (r : Readings) : Logger × List Effect :=
  if _shouldLog b env g (Value.str DEBUG) then _write g lg DEBUG (b.format args) r
  else (lg, [])

/-- Method `Logger.log(...arguments)`. -/
def log (b : Builtins) (env : Env) (g : Globals) (lg : Logger) (args : List Value)
    (r : Readings) : Logger × List Effect :=
  if _shouldLog b env g (Value.str DEBUG) then debug b env g lg args r
  else (lg, [])

/-- Method `Logger.info(...arguments)`. -/
def info (b : Builtins) (env : Env) (g : Globals) (lg : Logger) (args : List Value)
    (r : Readings) : Logger × List Effect :=
  if _shouldLog b env g (Value.str INFO) then _write g lg INFO (b.format args) r
  else (lg, [])

/-- Method `Logger.warn(...arguments)`. -/
def warn (b : Builtins) (env : Env) (g : Globals) (lg : Logger) (args : List Value)
    (r : Readings) : Logger × List Effect :=
  if _shouldLog b env g (Value.str WARN) then _write g lg WARN (b.format args) r
  else (lg, [])

/-- Method `Logger.error(...arguments)`. -/
def error (b : Builtins) (env : Env) (g : Globals) (lg : Logger) (args : List Value)
    (r : Readings) : Logger × List Effect :=
  if _shouldLog b env g (Value.str ERROR) then _write g lg ERROR (b.format args) r
  else (lg, [])

/-! ## The public API as a transition system -/

/-- The leveled methods. -/
inductive Method where
  | debug
  | log
  | info
  | warn
  | error
  deriving DecidableEq, Repr

/-- The level constant a method passes to `_shouldLog` and `_write`. -/
def Method.level : Method → String
  | .debug => DEBUG
  | .log => DEBUG
  | .info => INFO
  | .warn => WARN
  | .error => ERROR

/-- Dispatch of a leveled method. -/
def Method.invoke (m : Method) (b : Builtins) (env : Env) (g : Globals) (lg : Logger)
    (args : List Value) (r : Readings) : Logger × List Effect :=
  match m with
  | .debug => Logplease.debug b env g lg args r
  | .log => Logplease.log b env g lg args r
  | .info => Logplease.info b env g lg args r
  | .warn => Logplease.warn b env g lg args r
  | .error => Logplease.error b env g lg args r

/-- Operations of the public API on the module and one logger instance. -/
inductive Op where
  | setLogLevel (level : Value)
  | setLogfile (filename : Option String)
  | forceBrowserMode (force : Bool)
  | call (method : Method) (args : List Value) (r : Readings)

/-- Module variables together with one logger instance. -/
structure State where
  globals : Globals
  logger : Logger
  deriving DecidableEq, Repr

/-- One operation: the state afterwards and the host calls it made. -/
def step (b : Builtins) (env : Env) (s : State) : Op → State × List Effect
  | .setLogLevel level => ({ s with globals := { s.globals with GlobalLogLevel := level } }, [])
  | .setLogfile filename =>
      ({ s with globals := { s.globals with GlobalLogfile := filename } }, [])
  | .forceBrowserMode force => ({ s with globals := { s.globals with isNodejs := !force } }, [])
  | .call method args r =>
      let res := method.invoke b env s.globals s.logger args r
      ({ s with logger := res.1 }, res.2)

/-- A sequence of operations: the final state and all host calls, in order. -/
def run (b : Builtins) (env : Env) (s : State) : List Op → State × List Effect
  | [] => (s, [])
  | op :: ops =>
      let r1 := step b env s op
      let r2 := run b env r1.1 ops
      (r2.1, r1.2 ++ r2.2)

/-- One leveled call: the method, its arguments and what the host returns during it. -/
structure Call where
  method : Method
  args : List Value
  readings : Readings
  deriving DecidableEq, Repr

/-- The call as an operation. -/
def Call.op (c : Call) : Op := Op.call c.method c.args c.readings

/-! ## Observations on the recorded host calls -/

/-- An event published on the global stream: (event name, category, level, text). -/
def Effect.event? : Effect → Option (String × String × String × String)
  | .emit e c l t => some (e, c, l, t)
  | _ => none

/-- A console write: stream and argument list. -/
def Effect.console? : Effect → Option (Stream × List String)
  | .console s args => some (s, args)
  | _ => none

/-- A file write: descriptor and data. -/
def Effect.fileWrite? : Effect → Option (Nat × String)
  | .writeSync fd data => some (fd, data)
  | _ => none

/-- A file open: path and flags. -/
def Effect.fileOpen? : Effect → Option (String × String)
  | .openSync path flags => some (path, flags)
  | _ => none

/-- A POST: url and init object. -/
def Effect.post? : Effect → Option (Option String × FetchInit)
  | .fetch url init => some (url, init)
  | _ => none

/-- The events published, in order. -/
def events (es : List Effect) : List (String × String × String × String) :=
  es.filterMap Effect.event?

/-- The console writes, in order. -/
def consoleWrites (es : List Effect) : List (Stream × List String) :=
  es.filterMap Effect.console?

/-- The file writes, in order. -/
def fileWrites (es : List Effect) : List (Nat × String) :=
  es.filterMap Effect.fileWrite?

/-- The file opens, in order. -/
def fileOpens (es : List Effect) : List (String × String) :=
  es.filterMap Effect.fileOpen?

/-- The POSTs, in order. -/
def posts (es : List Effect) : List (Option String × FetchInit) :=
  es.filterMap Effect.post?

/-! ## Instances for evaluating examples -/

/-- Upper-casing of the ASCII letters, as `toUpperCase` acts on ASCII strings. -/
def asciiUpper (s : String) : String := String.mk (s.data.map Char.toUpper)

/-- Arguments left over by `util.format`: each appended after a space. -/
def restChars : List Value → List Char
  | [] => []
  | a :: rest => ' ' :: (a.template.data ++ restChars rest)

/-- Substitution of `%s` and `%d` by the next argument and of `%%` by a percent sign, for
string and integer arguments; the flag says that the previous character was an
unconsumed `%`. -/
def formatChars : Bool → List Char → List Value → List Char
  | pending, [], args => (if pending then ['%'] else []) ++ restChars args
  | false, c :: cs, args =>
      if c = '%' then formatChars true cs args else c :: formatChars false cs args
  | true, c :: cs, args =>
      if c = '%' then '%' :: formatChars false cs args
      else if c = 's' ∨ c = 'd' then
        match args with
        | a :: rest => a.template.data ++ formatChars false cs rest
        | [] => '%' :: c :: formatChars false cs []
      else '%' :: c :: formatChars false cs args

/-- A `util.format` for a format string followed by string and integer arguments. -/
def sampleFormat : List Value → String
  | [] => ""
  | Value.str f :: args => String.mk (formatChars false f.data args)
  | a :: args => String.mk (a.template.data ++ restChars args)

/-- Built-ins used to evaluate the model on concrete calls. -/
def sampleBuiltins : Builtins :=
  { toUpperCase := asciiUpper, format := sampleFormat }

/-- Readings used in examples: descriptor 3 and a fixed clock. -/
def sampleReadings : Readings :=
  { fd := 3, isoRaw := "2020-01-01T00:00:00.000Z", isoDisplay := "2020-01-01T00:00:00.000Z",
    nowMs := 1577836800000 }

/-- No `LOG` variable anywhere. -/
def noEnv : Env := { processLOG := none, windowLOG := none }

/-- The module under Node after `setLogfile("app.log")`. -/
def sampleFileGlobals : Globals :=
  (step sampleBuiltins noEnv
    ⟨Globals.load true, create (Globals.load true) "daemon" PartialOptions.empty⟩
    (Op.setLogfile (some "app.log"))).1.globals

/-- The logger `create("daemon", {showTimestamp: false, showLevel: false})`. -/
def daemonPlain : Logger :=
  create (Globals.load true) "daemon"
    { PartialOptions.empty with showTimestamp := some false, showLevel := some false }

/-- The logger `create("daemon", {filename: "debug.log"})`. -/
def daemonFile : Logger :=
  create (Globals.load true) "daemon"
    { PartialOptions.empty with filename := some (some "debug.log") }

/-! ## Level ordering as the specification words it -/

/-- The five levels. -/
inductive Level where
  | DEBUG
  | INFO
  | WARN
  | ERROR
  | NONE
  deriving DecidableEq, Repr

/-- The level name. -/
def Level.name : Level → String
  | .DEBUG => "DEBUG"
  | .INFO => "INFO"
  | .WARN => "WARN"
  | .ERROR => "ERROR"
  | .NONE => "NONE"

/-- The fixed sequence [DEBUG, INFO, WARN, ERROR, NONE]. -/
def fixedSequence : List Level := [.DEBUG, .INFO, .WARN, .ERROR, .NONE]

/-- Position of a level in the fixed sequence. -/
def rank (l : Level) : Nat := fixedSequence.indexOf l

/-! ## Theorems -/

theorem levels_eq : levels = ["DEBUG", "INFO", "WARN", "ERROR", "NONE"] := by decide

theorem indexOf_levels_name (l : Level) :
    indexOf levels (Value.str l.name) = (rank l : Int) := by
  cases l <;> decide

theorem rank_lt_five (l : Level) : rank l < 5 := by
  cases l <;> decide

theorem logLevel_noEnv (b : Builtins) (g : Globals) : logLevel b noEnv g = g.GlobalLogLevel := rfl

theorem shouldLog_eq (b : Builtins) (env : Env) (g : Globals) (level : Value) :
    _shouldLog b env g level
      = decide (indexOf levels level ≥ indexOf levels (logLevel b env g)) := rfl

theorem shouldLog_names (b : Builtins) (env : Env) (g : Globals) (l t : Level)
    (h : logLevel b env g = Value.str t.name) :
    _shouldLog b env g (Value.str l.name) = decide (rank l ≥ rank t) := by
  rw [shouldLog_eq, h, indexOf_levels_name, indexOf_levels_name]
  simp

theorem method_level_name (m : Method) :
    ∃ l : Level, l ≠ Level.NONE ∧ Value.str m.level = Value.str l.name := by
  cases m
  · exact ⟨Level.DEBUG, by decide, rfl⟩
  · exact ⟨Level.DEBUG, by decide, rfl⟩
  · exact ⟨Level.INFO, by decide, rfl⟩
  · exact ⟨Level.WARN, by decide, rfl⟩
  · exact ⟨Level.ERROR, by decide, rfl⟩

theorem invoke_rejected (b : Builtins) (env : Env) (g : Globals) (lg : Logger) (m : Method)
    (args : List Value) (r : Readings)
    (h : _shouldLog b env g (Value.str m.level) = false) :
    m.invoke b env g lg args r = (lg, []) := by
  cases m <;>
    simp only [Method.level] at h <;>
    simp [Method.invoke, debug, log, info, warn, error, h]

theorem invoke_accepted (b : Builtins) (env : Env) (g : Globals) (lg : Logger) (m : Method)
    (args : List Value) (r : Readings)
    (h : _shouldLog b env g (Value.str m.level) = true) :
    m.invoke b env g lg args r = _write g lg m.level (b.format args) r := by
  cases m <;>
    simp only [Method.level] at h <;>
    simp [Method.invoke, debug, log, info, warn, error, h, Method.level]

/-- C1: with no `LOG` override, after `setLogLevel(L2)` the filter `_shouldLog(L1)` is true
exactly when the position of `L1` in [DEBUG, INFO, WARN, ERROR, NONE] is at least that of
`L2`; and after `setLogLevel(NONE)` every leveled method returns without any host call and
leaves the logger as it was. -/
theorem shouldLog_iff_rank_ge (b : Builtins) (g : Globals) (lg : Logger) (l1 l2 : Level) :
    (_shouldLog b noEnv (step b noEnv ⟨g, lg⟩ (Op.setLogLevel (Value.str l2.name))).1.globals
        (Value.str l1.name) = true ↔ rank l1 ≥ rank l2)
    ∧ ∀ (m : Method) (args : List Value) (r : Readings),
        m.invoke b noEnv (step b noEnv ⟨g, lg⟩ (Op.setLogLevel (Value.str NONE))).1.globals
          lg args r = (lg, []) := by
  constructor
  · have h := shouldLog_names b noEnv
      (step b noEnv ⟨g, lg⟩ (Op.setLogLevel (Value.str l2.name))).1.globals l1 l2 rfl
    rw [h]
    simp
  · intro m args r
    apply invoke_rejected
    obtain ⟨l, hl, hm⟩ := method_level_name m
    have h := shouldLog_names b noEnv
      (step b noEnv ⟨g, lg⟩ (Op.setLogLevel (Value.str NONE))).1.globals l Level.NONE rfl
    rw [hm, h]
    cases l <;> first | exact absurd rfl hl | decide

theorem logLevel_of_env (b : Builtins) (env : Env) (g : Globals) (v : String) (t : Level)
    (hv : (env.windowLOG = some v ∧ v ≠ "")
      ∨ (truthyOpt env.windowLOG = false ∧ env.processLOG = some v))
    (hup : b.toUpperCase v = t.name) :
    logLevel b env g = Value.str t.name := by
  have ht : truthyStr t.name = true := by cases t <;> decide
  obtain ⟨p, w⟩ := env
  rcases hv with ⟨hw, hne⟩ | ⟨hw, hp⟩
  · simp only at hw
    subst hw
    have hvt : truthyStr v = true := by simp [truthyStr, hne]
    simp [logLevel, hvt, hup, ht]
  · simp only at hw hp
    subst hp
    cases w with
    | none => simp [logLevel, hup, ht]
    | some w =>
      have hwf : truthyStr w = false := hw
      simp [logLevel, hwf, hup, ht]

/-- C2: when the `LOG` value in effect (`window.LOG` if non-empty, else `process.env.LOG`)
upper-cases to the name of level `t`, `_shouldLog(l)` is `rank l >= rank t` whatever the
module variables are; a leveled call leaves the module variables, the global level among
them, unchanged; and with no `LOG` at all the threshold is the global level. -/
theorem env_override_threshold (b : Builtins) (env : Env) (g : Globals) (lg : Logger)
    (v : String) (t l : Level)
    (hv : (env.windowLOG = some v ∧ v ≠ "")
      ∨ (truthyOpt env.windowLOG = false ∧ env.processLOG = some v))
    (hup : b.toUpperCase v = t.name) :
    _shouldLog b env g (Value.str l.name) = decide (rank l ≥ rank t)
    ∧ (∀ (m : Method) (args : List Value) (r : Readings),
        (step b env ⟨g, lg⟩ (Op.call m args r)).1.globals = g)
    ∧ logLevel b noEnv g = g.GlobalLogLevel
    ∧ (∀ G : Level, g.GlobalLogLevel = Value.str G.name →
        _shouldLog b noEnv g (Value.str l.name) = decide (rank l ≥ rank G)) := by
  refine ⟨shouldLog_names b env g l t (logLevel_of_env b env g v t hv hup), ?_, rfl, ?_⟩
  · intro m args r
    rfl
  · intro G hG
    exact shouldLog_names b noEnv g l G hG

/-- C2 at `LOG=ERROR` with global level DEBUG: `warn` is suppressed, `error` gets through
to the console and the event stream, and the global level is still DEBUG. -/
theorem env_override_threshold_witness :
    ((({ processLOG := some "ERROR", windowLOG := none } : Env).windowLOG = some "ERROR"
        ∧ "ERROR" ≠ "")
      ∨ (truthyOpt ({ processLOG := some "ERROR", windowLOG := none } : Env).windowLOG = false
        ∧ ({ processLOG := some "ERROR", windowLOG := none } : Env).processLOG = some "ERROR"))
    ∧ sampleBuiltins.toUpperCase "ERROR" = Level.ERROR.name
    ∧ (_shouldLog sampleBuiltins { processLOG := some "ERROR", windowLOG := none }
          (Globals.load true) (Value.str Level.WARN.name) = decide (rank Level.WARN ≥ rank Level.ERROR)
        ∧ (∀ (m : Method) (args : List Value) (r : Readings),
            (step sampleBuiltins { processLOG := some "ERROR", windowLOG := none }
              ⟨Globals.load true, create (Globals.load true) "daemon" PartialOptions.empty⟩
              (Op.call m args r)).1.globals = Globals.load true)
        ∧ logLevel sampleBuiltins noEnv (Globals.load true) = (Globals.load true).GlobalLogLevel
        ∧ (∀ G : Level, (Globals.load true).GlobalLogLevel = Value.str G.name →
            _shouldLog sampleBuiltins noEnv (Globals.load true) (Value.str Level.WARN.name)
              = decide (rank Level.WARN ≥ rank G)))
    ∧ (warn sampleBuiltins { processLOG := some "ERROR", windowLOG := none } (Globals.load true)
        (create (Globals.load true) "daemon" PartialOptions.empty) [Value.str "w"]
        sampleReadings).2 = []
    ∧ (error sampleBuiltins { processLOG := some "ERROR", windowLOG := none } (Globals.load true)
        (create (Globals.load true) "daemon" PartialOptions.empty) [Value.str "e"]
        sampleReadings).2
      = [Effect.console Stream.log
          ["\u001b[37m2020-01-01T00:00:00.000Z \u001b[31;22m[ERROR] \u001b[39;1mdaemon\u001b[0m: e"],
         Effect.emit "data" "daemon" "ERROR" "e"] :=
  ⟨Or.inr ⟨by decide, by decide⟩, by decide,
   env_override_threshold sampleBuiltins { processLOG := some "ERROR", windowLOG := none }
     (Globals.load true) (create (Globals.load true) "daemon" PartialOptions.empty)
     "ERROR" Level.ERROR Level.WARN (Or.inr ⟨by decide, by decide⟩) (by decide),
   by decide, by decide⟩

theorem indexOf_levels_unknown (v : Value) (h : ∀ l : Level, v ≠ Value.str l.name) :
    indexOf levels v = -1 := by
  have h1 := h Level.DEBUG
  have h2 := h Level.INFO
  have h3 := h Level.WARN
  have h4 := h Level.ERROR
  have h5 := h Level.NONE
  simp only [Level.name] at h1 h2 h3 h4 h5
  simp [indexOf, levels_eq, indexOfFrom, Ne.symm h1, Ne.symm h2, Ne.symm h3, Ne.symm h4,
    Ne.symm h5, DEBUG, INFO, WARN, ERROR, NONE]

/-- C3, as the code has it: a candidate that is not one of the five names is rejected
under every recognized threshold, while a threshold (global level or upper-cased `LOG`)
that is not one of the five names lets every candidate through. -/
theorem unknown_level_filter (b : Builtins) (env : Env) (g : Globals) (v : Value) :
    ((∀ l : Level, v ≠ Value.str l.name) → ∀ t : Level, logLevel b env g = Value.str t.name →
        _shouldLog b env g v = false)
    ∧ ((∀ t : Level, logLevel b env g ≠ Value.str t.name) → _shouldLog b env g v = true) := by
  constructor
  · intro hv t ht
    rw [shouldLog_eq, ht, indexOf_levels_name, indexOf_levels_unknown v hv]
    simp
    omega
  · intro ht
    rw [shouldLog_eq, indexOf_levels_unknown _ ht]
    have : indexOf levels v ≥ -1 := by
      by_cases hv : ∀ l : Level, v ≠ Value.str l.name
      · rw [indexOf_levels_unknown v hv]
      · push_neg at hv
        obtain ⟨l, hl⟩ := hv
        rw [hl, indexOf_levels_name]
        omega
    simpa using this

/-- C3 at concrete inputs: candidate "TRACE" under threshold WARN is rejected; after
`setLogLevel("VERBOSE")` the candidate DEBUG passes. -/
theorem unknown_level_filter_witness :
    _shouldLog sampleBuiltins noEnv
        (step sampleBuiltins noEnv
          ⟨Globals.load true, create (Globals.load true) "daemon" PartialOptions.empty⟩
          (Op.setLogLevel (Value.str WARN))).1.globals (Value.str "TRACE") = false
    ∧ _shouldLog sampleBuiltins noEnv
        (step sampleBuiltins noEnv
          ⟨Globals.load true, create (Globals.load true) "daemon" PartialOptions.empty⟩
          (Op.setLogLevel (Value.str "VERBOSE"))).1.globals (Value.str "TRACE") = true :=
  ⟨(unknown_level_filter sampleBuiltins noEnv _ (Value.str "TRACE")).1
      (by intro l; cases l <;> decide) Level.WARN rfl,
   (unknown_level_filter sampleBuiltins noEnv _ (Value.str "TRACE")).2
      (by intro t; cases t <;> decide)⟩

/-- C3 fails as stated: "VERBOSE" is not a level name, yet with it as the global level
(or with `LOG=verbose`) `_shouldLog` returns true, for DEBUG and for every real level. -/
theorem unknown_threshold_emits :
    indexOf levels (Value.str "VERBOSE") = -1
    ∧ _shouldLog sampleBuiltins noEnv
        (step sampleBuiltins noEnv
          ⟨Globals.load true, create (Globals.load true) "daemon" PartialOptions.empty⟩
          (Op.setLogLevel (Value.str "VERBOSE"))).1.globals (Value.str DEBUG) = true
    ∧ _shouldLog sampleBuiltins { processLOG := some "verbose", windowLOG := none }
        (Globals.load true) (Value.str DEBUG) = true := by
  decide

/-! ### Host calls of one `_write` -/

theorem write_events (g : Globals) (lg : Logger) (level text : String) (r : Readings) :
    events (_write g lg level text r).2
      = if g.isNodejs || !lg.options.useColors then [("data", lg.category, level, text)]
        else [] := by
  simp only [_write, events]
  split_ifs <;> simp_all [Effect.event?, _sendToGraylog]

theorem write_consoleWrites (g : Globals) (lg : Logger) (level text : String) (r : Readings) :
    consoleWrites (_write g lg level text r).2
      = [(if level = ERROR ∧ g.isNodejs = false ∧ lg.options.useColors = true
            then Stream.error else Stream.log,
          if g.isNodejs || !lg.options.useColors then [formattedText g lg level text r]
          else markupArgs lg (formattedText g lg level text r) (_format g lg level))] := by
  simp only [_write, consoleWrites]
  split_ifs <;> simp_all [Effect.console?, _sendToGraylog, formattedText, _format,
    _createLogMessage, markupArgs]

theorem invoke_events (b : Builtins) (env : Env) (g : Globals) (lg : Logger) (m : Method)
    (args : List Value) (r : Readings) :
    events (m.invoke b env g lg args r).2
      = if _shouldLog b env g (Value.str m.level) && (g.isNodejs || !lg.options.useColors)
        then [("data", lg.category, m.level, b.format args)]
        else [] := by
  cases h : _shouldLog b env g (Value.str m.level)
  · rw [invoke_rejected b env g lg m args r h]
    simp [events]
  · rw [invoke_accepted b env g lg m args r h, write_events]
    simp

/-- C4 at the failing input: in forced browser mode with the default options (`useColors`
true) and global level WARN, `warn("z")` passes the filter and writes to the console once,
but publishes no event; the same call in Node mode publishes ("data", "daemon", "WARN",
"z"). -/
theorem browser_colors_warn_no_event :
    events (run sampleBuiltins noEnv
        ⟨Globals.load true, create (Globals.load true) "daemon" PartialOptions.empty⟩
        [Op.forceBrowserMode true, Op.setLogLevel (Value.str WARN),
         Op.call Method.warn [Value.str "z"] sampleReadings]).2 = []
    ∧ consoleWrites (run sampleBuiltins noEnv
        ⟨Globals.load true, create (Globals.load true) "daemon" PartialOptions.empty⟩
        [Op.forceBrowserMode true, Op.setLogLevel (Value.str WARN),
         Op.call Method.warn [Value.str "z"] sampleReadings]).2
      = [(Stream.log, ["%c2020-01-01T00:00:00.000Z %c[WARN]  %cdaemon: %cz",
          "color:7", "color:3", "color:9; font-weight: bold", ": "])]
    ∧ events (run sampleBuiltins noEnv
        ⟨Globals.load true, create (Globals.load true) "daemon" PartialOptions.empty⟩
        [Op.setLogLevel (Value.str WARN),
         Op.call Method.warn [Value.str "z"] sampleReadings]).2
      = [("data", "daemon", "WARN", "z")] := by
  decide

/-- The console write of an accepted leveled call, for every configuration and both
runtime targets: exactly one, with the display text as first argument; the stream is
`console.error` exactly when the level is ERROR and the markup branch of `_write` (forced
browser mode with `useColors` true) is taken. -/
theorem console_write_routing (b : Builtins) (env : Env) (g : Globals) (lg : Logger)
    (m : Method) (args : List Value) (r : Readings)
    (h : _shouldLog b env g (Value.str m.level) = true) :
    consoleWrites (m.invoke b env g lg args r).2
      = [(if m.level = ERROR ∧ g.isNodejs = false ∧ lg.options.useColors = true
            then Stream.error else Stream.log,
          if g.isNodejs || !lg.options.useColors
            then [formattedText g lg m.level (b.format args) r]
          else markupArgs lg (formattedText g lg m.level (b.format args) r)
            (_format g lg m.level))]
    ∧ (markupArgs lg (formattedText g lg m.level (b.format args) r) (_format g lg m.level)).head?
      = some (formattedText g lg m.level (b.format args) r) := by
  rw [invoke_accepted b env g lg m args r h, write_consoleWrites]
  refine ⟨rfl, ?_⟩
  simp only [markupArgs]
  split_ifs <;> rfl

/-- C5 at the failing input: in Node mode with the default options `error("e")` is accepted
and its single console write goes to `console.log`, not to `console.error`; so does the
same call in forced browser mode with `useColors` false, while in forced browser mode with
`useColors` true the sibling branch sends it to `console.error`. -/
theorem error_written_to_console_log :
    _shouldLog sampleBuiltins noEnv (Globals.load true) (Value.str ERROR) = true
    ∧ consoleWrites (error sampleBuiltins noEnv (Globals.load true)
        (create (Globals.load true) "daemon" PartialOptions.empty) [Value.str "e"]
        sampleReadings).2
      = [(Stream.log,
          ["\u001b[37m2020-01-01T00:00:00.000Z \u001b[31;22m[ERROR] \u001b[39;1mdaemon\u001b[0m: e"])]
    ∧ consoleWrites (error sampleBuiltins noEnv { Globals.load true with isNodejs := false }
        (create (Globals.load true) "daemon"
          { PartialOptions.empty with useColors := some false }) [Value.str "e"]
        sampleReadings).2
      = [(Stream.log, ["2020-01-01T00:00:00.000Z [ERROR] daemon: e"])]
    ∧ consoleWrites (error sampleBuiltins noEnv { Globals.load true with isNodejs := false }
        (create (Globals.load true) "daemon" PartialOptions.empty) [Value.str "e"]
        sampleReadings).2
      = [(Stream.error, ["%c2020-01-01T00:00:00.000Z %c[ERROR] %cdaemon: %ce",
          "color:7", "color:1", "color:9; font-weight: bold", ": "])] := by
  decide

/-- C7: when `useColors` is false the display text equals the raw text: with the
decorations returned by `_format`, `_createLogMessage` builds the same string as with no
decorations, for every category, level, message, `showTimestamp`, `showLevel`, runtime
target and clock reading; so `formattedText` and `unformattedText` of `_write` agree when
both clock readings are the same. -/
theorem display_eq_raw_without_colors (g : Globals) (lg : Logger) (level text iso : String)
    (r : Readings) (h : lg.options.useColors = false) (hclock : r.isoDisplay = r.isoRaw) :
    _createLogMessage g lg iso level text (some (_format g lg level).timestamp)
        (some (_format g lg level).level) (some (_format g lg level).category)
        (some (_format g lg level).text)
      = _createLogMessage g lg iso level text none none none none
    ∧ formattedText g lg level text r = unformattedText g lg level text r := by
  constructor
  · simp [_format, _createLogMessage, h, orDefault, truthyStr]
  · simp [formattedText, unformattedText, hclock, _format, _createLogMessage, h, orDefault,
      truthyStr]

/-- C7 at a logger created with `useColors: false` in forced browser mode. -/
theorem display_eq_raw_without_colors_witness :
    formattedText { Globals.load true with isNodejs := false }
        (create (Globals.load true) "daemon"
          { PartialOptions.empty with useColors := some false }) WARN "z" sampleReadings
      = unformattedText { Globals.load true with isNodejs := false }
        (create (Globals.load true) "daemon"
          { PartialOptions.empty with useColors := some false }) WARN "z" sampleReadings
    ∧ unformattedText { Globals.load true with isNodejs := false }
        (create (Globals.load true) "daemon"
          { PartialOptions.empty with useColors := some false }) WARN "z" sampleReadings
      = "2020-01-01T00:00:00.000Z [WARN]  daemon: z" :=
  ⟨(display_eq_raw_without_colors { Globals.load true with isNodejs := false }
      (create (Globals.load true) "daemon"
        { PartialOptions.empty with useColors := some false }) WARN "z" "" sampleReadings
      rfl rfl).2,
   by decide⟩

theorem write_posts (g : Globals) (lg : Logger) (level text : String) (r : Readings) :
    posts (_write g lg level text r).2
      = if lg.options.useGraylog then
          [(lg.options.graylogUrl,
            { method := "POST"
              headers := [("Content-Type", "application/json")]
              mode := "cors"
              cache := "default"
              body := graylogData level text r.nowMs })]
        else [] := by
  simp only [_write, posts]
  split_ifs <;> simp_all [Effect.post?, _sendToGraylog]

/-- C8, as the code has it: an accepted leveled call on a logger with the remote sink
enabled hands exactly one POST to `fetch`, whose body has exactly the four fields
`timestamp`, `short_message`, `long_message` and `hLevel`: both messages are the
interpolated message, `hLevel` is the level of the call, and `timestamp` is the clock
reading in milliseconds divided by 1000. -/
theorem graylog_payload (b : Builtins) (env : Env) (g : Globals) (lg : Logger)
    (m : Method) (args : List Value) (r : Readings)
    (h : _shouldLog b env g (Value.str m.level) = true)
    (hg : lg.options.useGraylog = true) :
    posts (m.invoke b env g lg args r).2
      = [(lg.options.graylogUrl,
          { method := "POST"
            headers := [("Content-Type", "application/json")]
            mode := "cors"
            cache := "default"
            body := [("timestamp", Json.num ((r.nowMs : ℚ) / 1000)),
                     ("short_message", Json.str (b.format args)),
                     ("long_message", Json.str (b.format args)),
                     ("hLevel", Json.str m.level)] })] := by
  rw [invoke_accepted b env g lg m args r h, write_posts, if_pos hg]
  rfl

/-- C8 amended, at `warn("z")` with the clock at 1500 ms: the timestamp field is 3/2. -/
theorem graylog_payload_witness :
    _shouldLog sampleBuiltins noEnv (Globals.load true) (Value.str Method.warn.level) = true
    ∧ (create (Globals.load true) "daemon"
        { PartialOptions.empty with
          useGraylog := some true, graylogUrl := some (some "http://graylog/gelf") }).options.useGraylog
      = true
    ∧ posts (Method.warn.invoke sampleBuiltins noEnv (Globals.load true)
        (create (Globals.load true) "daemon"
          { PartialOptions.empty with
            useGraylog := some true, graylogUrl := some (some "http://graylog/gelf") })
        [Value.str "z"] { sampleReadings with nowMs := 1500 }).2
      = [(some "http://graylog/gelf",
          { method := "POST"
            headers := [("Content-Type", "application/json")]
            mode := "cors"
            cache := "default"
            body := [("timestamp", Json.num (3 / 2)),
                     ("short_message", Json.str "z"),
                     ("long_message", Json.str "z"),
                     ("hLevel", Json.str "WARN")] })] :=
  ⟨by decide, rfl,
   (graylog_payload sampleBuiltins noEnv (Globals.load true)
      (create (Globals.load true) "daemon"
        { PartialOptions.empty with
          useGraylog := some true, graylogUrl := some (some "http://graylog/gelf") })
      Method.warn [Value.str "z"] { sampleReadings with nowMs := 1500 } (by decide) rfl).trans
     (by
        have hq : ((({ sampleReadings with nowMs := 1500 } : Readings).nowMs : ℚ) / 1000)
            = 3 / 2 := by
          show ((1500 : ℕ) : ℚ) / 1000 = 3 / 2
          norm_num
        rw [hq]
        rfl)⟩

/-- C8 fails as stated: the body of the POST made by an accepted `warn("z")` has the
fields `timestamp`, `short_message`, `long_message`, `hLevel`, and no field `level`. -/
theorem graylog_payload_has_no_level_field :
    (posts (warn sampleBuiltins noEnv (Globals.load true)
        (create (Globals.load true) "daemon"
          { PartialOptions.empty with
            useGraylog := some true, graylogUrl := some (some "http://graylog/gelf") })
        [Value.str "z"] sampleReadings).2).map (fun p => p.2.body.map Prod.fst)
      = [["timestamp", "short_message", "long_message", "hLevel"]]
    ∧ (posts (warn sampleBuiltins noEnv (Globals.load true)
        (create (Globals.load true) "daemon"
          { PartialOptions.empty with
            useGraylog := some true, graylogUrl := some (some "http://graylog/gelf") })
        [Value.str "z"] sampleReadings).2).map (fun p => (p.2.body.lookup "level").isSome)
      = [false] := by
  decide

/-- C10: with `showLevel` true the raw text carries, between the timestamp part and the
category part, the segment "[DEBUG] ", "[INFO]  ", "[WARN]  " or "[ERROR] ": one more space
after the bracket for INFO and WARN than for DEBUG and ERROR, so that the four raw lines of
one message have the same length; with `showLevel` false the raw text is the timestamp part
followed by the category part, the same for every level. In forced browser mode with colors
each decoration slot holds the marker "%c", otherwise it is empty. -/
theorem level_segment_padding (g : Globals) (lg : Logger) (iso text : String) :
    (lg.options.showLevel = true →
      (_createLogMessage g lg iso DEBUG text none none none none
          = (if !g.isNodejs && lg.options.useColors && lg.options.showTimestamp then "%c" else "")
            ++ (if lg.options.showTimestamp then iso ++ " " else "")
            ++ (if !g.isNodejs && lg.options.useColors then "%c" else "")
            ++ "[DEBUG] "
            ++ (if !g.isNodejs && lg.options.useColors then "%c" else "") ++ lg.category
            ++ (if !g.isNodejs && lg.options.useColors then ": %c" else ": ") ++ text)
      ∧ (_createLogMessage g lg iso INFO text none none none none
          = (if !g.isNodejs && lg.options.useColors && lg.options.showTimestamp then "%c" else "")
            ++ (if lg.options.showTimestamp then iso ++ " " else "")
            ++ (if !g.isNodejs && lg.options.useColors then "%c" else "")
            ++ "[INFO]  "
            ++ (if !g.isNodejs && lg.options.useColors then "%c" else "") ++ lg.category
            ++ (if !g.isNodejs && lg.options.useColors then ": %c" else ": ") ++ text)
      ∧ (_createLogMessage g lg iso WARN text none none none none
          = (if !g.isNodejs && lg.options.useColors && lg.options.showTimestamp then "%c" else "")
            ++ (if lg.options.showTimestamp then iso ++ " " else "")
            ++ (if !g.isNodejs && lg.options.useColors then "%c" else "")
            ++ "[WARN]  "
            ++ (if !g.isNodejs && lg.options.useColors then "%c" else "") ++ lg.category
            ++ (if !g.isNodejs && lg.options.useColors then ": %c" else ": ") ++ text)
      ∧ (_createLogMessage g lg iso ERROR text none none none none
          = (if !g.isNodejs && lg.options.useColors && lg.options.showTimestamp then "%c" else "")
            ++ (if lg.options.showTimestamp then iso ++ " " else "")
            ++ (if !g.isNodejs && lg.options.useColors then "%c" else "")
            ++ "[ERROR] "
            ++ (if !g.isNodejs && lg.options.useColors then "%c" else "") ++ lg.category
            ++ (if !g.isNodejs && lg.options.useColors then ": %c" else ": ") ++ text)
      ∧ (_createLogMessage g lg iso INFO text none none none none).length
          = (_createLogMessage g lg iso DEBUG text none none none none).length
      ∧ (_createLogMessage g lg iso WARN text none none none none).length
          = (_createLogMessage g lg iso DEBUG text none none none none).length
      ∧ (_createLogMessage g lg iso ERROR text none none none none).length
          = (_createLogMessage g lg iso DEBUG text none none none none).length)
    ∧ (lg.options.showLevel = false → ∀ level : String,
        _createLogMessage g lg iso level text none none none none
          = (if !g.isNodejs && lg.options.useColors && lg.options.showTimestamp then "%c" else "")
            ++ (if lg.options.showTimestamp then iso ++ " " else "")
            ++ (if !g.isNodejs && lg.options.useColors then "%c" else "") ++ lg.category
            ++ (if !g.isNodejs && lg.options.useColors then ": %c" else ": ") ++ text) := by
  constructor
  · intro h
    cases hn : g.isNodejs <;> cases hc : lg.options.useColors <;>
      cases ht : lg.options.showTimestamp <;>
      simp [_createLogMessage, h, hn, hc, ht, orDefault, DEBUG, INFO, WARN, ERROR,
        String.append_assoc, String.length_append] <;>
      (try simp [String.ext_iff, String.data_append]) <;>
      (try decide)
  · intro h level
    cases hn : g.isNodejs <;> cases hc : lg.options.useColors <;>
      cases ht : lg.options.showTimestamp <;>
      simp [_createLogMessage, h, hn, hc, ht, orDefault, String.append_assoc]
    simp [String.ext_iff, String.data_append]

/-- C10 at the default options in Node mode: the INFO line has two spaces after the
bracket and is as long as the DEBUG line. -/
theorem level_segment_padding_witness :
    (create (Globals.load true) "daemon" PartialOptions.empty).options.showLevel = true
    ∧ _createLogMessage (Globals.load true)
        (create (Globals.load true) "daemon" PartialOptions.empty)
        "2020-01-01T00:00:00.000Z" INFO "z" none none none none
      = "2020-01-01T00:00:00.000Z [INFO]  daemon: z"
    ∧ (_createLogMessage (Globals.load true)
        (create (Globals.load true) "daemon" PartialOptions.empty)
        "2020-01-01T00:00:00.000Z" INFO "z" none none none none).length
      = (_createLogMessage (Globals.load true)
        (create (Globals.load true) "daemon" PartialOptions.empty)
        "2020-01-01T00:00:00.000Z" DEBUG "z" none none none none).length :=
  ⟨rfl,
   ((level_segment_padding (Globals.load true)
      (create (Globals.load true) "daemon" PartialOptions.empty)
      "2020-01-01T00:00:00.000Z" "z").1 rfl).2.1.trans (by decide),
   ((level_segment_padding (Globals.load true)
      (create (Globals.load true) "daemon" PartialOptions.empty)
      "2020-01-01T00:00:00.000Z" "z").1 rfl).2.2.2.2.1⟩

/-! ### The file sink over a sequence of calls -/

theorem write_options (g : Globals) (lg : Logger) (level text : String) (r : Readings) :
    (_write g lg level text r).1.options = lg.options
    ∧ (_write g lg level text r).1.category = lg.category := by
  simp only [_write]
  split_ifs <;> exact ⟨rfl, rfl⟩

theorem unformattedText_congr (g : Globals) (lg lg2 : Logger) (level text : String)
    (r : Readings) (ho : lg2.options = lg.options) (hc : lg2.category = lg.category) :
    unformattedText g lg2 level text r = unformattedText g lg level text r := by
  simp [unformattedText, _createLogMessage, ho, hc]

/-- A write by a logger that holds a truthy descriptor: no open, one file write to that
descriptor, logger unchanged. -/
theorem write_with_handle (g : Globals) (lg : Logger) (level text : String) (r : Readings)
    (fd : Nat) (hnode : g.isNodejs = true) (hw : lg.fileWriter = some fd) (hfd : fd ≠ 0) :
    (_write g lg level text r).1 = lg
    ∧ fileOpens (_write g lg level text r).2 = []
    ∧ fileWrites (_write g lg level text r).2
        = [(fd, unformattedText g lg level text r ++ "\n")] := by
  have ht : truthyFd lg.fileWriter = true := by simp [hw, truthyFd, hfd]
  refine ⟨?_, ?_, ?_⟩
  · simp [_write, ht]
  · simp only [_write, fileOpens]
    split_ifs <;> simp_all [Effect.fileOpen?, _sendToGraylog]
  · simp only [_write, fileWrites]
    split_ifs <;> simp_all [Effect.fileWrite?, _sendToGraylog]

/-- The first write of a logger without a truthy descriptor, in Node mode with a file path
configured: one open of that path, the returned descriptor is stored, and, when it is
truthy, the line is written to it. -/
theorem write_first (g : Globals) (lg : Logger) (level text : String) (r : Readings)
    (hnode : g.isNodejs = true)
    (hpath : truthyOpt (orOpt lg.options.filename g.GlobalLogfile) = true)
    (hw : truthyFd lg.fileWriter = false) :
    (_write g lg level text r).1 = { lg with fileWriter := some r.fd }
    ∧ fileOpens (_write g lg level text r).2
        = [((orOpt lg.options.filename g.GlobalLogfile).getD "",
            if lg.options.appendFile then "a+" else "w+")]
    ∧ fileWrites (_write g lg level text r).2
        = if r.fd ≠ 0 then [(r.fd, unformattedText g lg level text r ++ "\n")] else [] := by
  refine ⟨?_, ?_, ?_⟩
  · simp [_write, hw, hnode, hpath]
  · simp only [_write, fileOpens]
    split_ifs <;> simp_all [Effect.fileOpen?, _sendToGraylog]
  · simp only [_write, fileWrites]
    split_ifs <;> simp_all [Effect.fileWrite?, _sendToGraylog, truthyFd, unformattedText,
      _createLogMessage]

theorem step_call_accepted (b : Builtins) (env : Env) (g : Globals) (lg : Logger) (c : Call)
    (h : _shouldLog b env g (Value.str c.method.level) = true) :
    step b env ⟨g, lg⟩ c.op
      = (⟨g, (_write g lg c.method.level (b.format c.args) c.readings).1⟩,
         (_write g lg c.method.level (b.format c.args) c.readings).2) := by
  simp [step, Call.op, invoke_accepted b env g lg c.method c.args c.readings h]

theorem fileWrites_append (xs ys : List Effect) :
    fileWrites (xs ++ ys) = fileWrites xs ++ fileWrites ys := by
  simp [fileWrites, List.filterMap_append]

theorem fileOpens_append (xs ys : List Effect) :
    fileOpens (xs ++ ys) = fileOpens xs ++ fileOpens ys := by
  simp [fileOpens, List.filterMap_append]

/-- Accepted calls on a logger that holds a truthy descriptor: the logger and the module
variables stay as they are, nothing is opened, and each call writes its raw line to that
descriptor, in call order. -/
theorem run_with_handle (b : Builtins) (env : Env) (g : Globals) (lg : Logger) (fd : Nat)
    (hnode : g.isNodejs = true) (hw : lg.fileWriter = some fd) (hfd : fd ≠ 0)
    (calls : List Call)
    (hacc : ∀ c ∈ calls, _shouldLog b env g (Value.str c.method.level) = true) :
    (run b env ⟨g, lg⟩ (calls.map Call.op)).1 = ⟨g, lg⟩
    ∧ fileOpens (run b env ⟨g, lg⟩ (calls.map Call.op)).2 = []
    ∧ fileWrites (run b env ⟨g, lg⟩ (calls.map Call.op)).2
        = calls.map (fun c =>
            (fd, unformattedText g lg c.method.level (b.format c.args) c.readings ++ "\n")) := by
  induction calls with
  | nil => exact ⟨rfl, rfl, rfl⟩
  | cons c cs ih =>
    have hc := hacc c (List.mem_cons_self c cs)
    have hcs : ∀ c2 ∈ cs, _shouldLog b env g (Value.str c2.method.level) = true :=
      fun c2 h2 => hacc c2 (List.mem_cons_of_mem c h2)
    obtain ⟨h1, h2, h3⟩ :=
      write_with_handle g lg c.method.level (b.format c.args) c.readings fd hnode hw hfd
    obtain ⟨i1, i2, i3⟩ := ih hcs
    have hs : (step b env ⟨g, lg⟩ c.op).1 = ⟨g, lg⟩ := by
      rw [step_call_accepted b env g lg c hc, h1]
    have he : (step b env ⟨g, lg⟩ c.op).2
        = (_write g lg c.method.level (b.format c.args) c.readings).2 := by
      rw [step_call_accepted b env g lg c hc]
    simp [run, hs, he, fileOpens_append, fileWrites_append, i1, i2, i3, h2, h3]

/-- The first accepted call of a logger without a truthy descriptor, in Node mode with a
file path configured, when `fs.openSync` returns a truthy descriptor: the whole sequence
opens the path once, with flags "a+" or "w+" by `appendFile`, and writes every raw line
to the descriptor of that open. -/
theorem run_opens_once_of_truthy_handle (b : Builtins) (env : Env) (g : Globals)
    (lg : Logger) (c : Call) (cs : List Call)
    (hnode : g.isNodejs = true)
    (hpath : truthyOpt (orOpt lg.options.filename g.GlobalLogfile) = true)
    (hw : truthyFd lg.fileWriter = false)
    (hfd : c.readings.fd ≠ 0)
    (hacc : ∀ c2 ∈ c :: cs, _shouldLog b env g (Value.str c2.method.level) = true) :
    fileOpens (run b env ⟨g, lg⟩ ((c :: cs).map Call.op)).2
        = [((orOpt lg.options.filename g.GlobalLogfile).getD "",
            if lg.options.appendFile then "a+" else "w+")]
    ∧ fileWrites (run b env ⟨g, lg⟩ ((c :: cs).map Call.op)).2
        = (c :: cs).map (fun c2 =>
            (c.readings.fd,
              unformattedText g lg c2.method.level (b.format c2.args) c2.readings ++ "\n")) := by
  have hc := hacc c (List.mem_cons_self c cs)
  have hcs : ∀ c2 ∈ cs, _shouldLog b env g (Value.str c2.method.level) = true :=
    fun c2 h2 => hacc c2 (List.mem_cons_of_mem c h2)
  obtain ⟨h1, h2, h3⟩ :=
    write_first g lg c.method.level (b.format c.args) c.readings hnode hpath hw
  rw [if_pos hfd] at h3
  obtain ⟨_, i2, i3⟩ := run_with_handle b env g { lg with fileWriter := some c.readings.fd }
    c.readings.fd hnode rfl hfd cs hcs
  have hs : (step b env ⟨g, lg⟩ c.op).1 = ⟨g, { lg with fileWriter := some c.readings.fd }⟩ := by
    rw [step_call_accepted b env g lg c hc, h1]
  have he : (step b env ⟨g, lg⟩ c.op).2
      = (_write g lg c.method.level (b.format c.args) c.readings).2 := by
    rw [step_call_accepted b env g lg c hc]
  simp only [List.map_cons, run, hs, he, fileOpens_append, fileWrites_append, i2, i3, h2, h3]
  refine ⟨rfl, ?_⟩
  simp only [List.singleton_append, List.cons.injEq, true_and]
  apply List.map_congr_left
  intro c2 _
  rw [unformattedText_congr g lg { lg with fileWriter := some c.readings.fd } _ _ _ rfl rfl]

theorem unformattedText_plain (g : Globals) (lg : Logger) (level text : String) (r : Readings)
    (hnode : g.isNodejs = true) (hts : lg.options.showTimestamp = false)
    (hlv : lg.options.showLevel = false) :
    unformattedText g lg level text r ++ "\n" = lg.category ++ ": " ++ text ++ "\n" := by
  simp [unformattedText, _createLogMessage, hnode, hts, hlv, orDefault, String.append_assoc]

/-- The file sink when `fs.openSync` returns a truthy descriptor: in Node mode, for a
logger without a descriptor yet, with a file path configured (its own `filename` or the
global logfile) and `showTimestamp` and `showLevel` false, a sequence of accepted leveled
calls opens that path once, on the first call, and writes to the descriptor of that open,
call by call and in call order, category ++ ": " ++ message ++ "\n", for every category
string and every `useColors`. -/
theorem file_lines_of_truthy_handle (b : Builtins) (env : Env) (g : Globals) (lg : Logger)
    (c : Call) (cs : List Call)
    (hnode : g.isNodejs = true)
    (hpath : truthyOpt (orOpt lg.options.filename g.GlobalLogfile) = true)
    (hts : lg.options.showTimestamp = false) (hlv : lg.options.showLevel = false)
    (hw : truthyFd lg.fileWriter = false)
    (hfd : c.readings.fd ≠ 0)
    (hacc : ∀ c2 ∈ c :: cs, _shouldLog b env g (Value.str c2.method.level) = true) :
    fileOpens (run b env ⟨g, lg⟩ ((c :: cs).map Call.op)).2
        = [((orOpt lg.options.filename g.GlobalLogfile).getD "",
            if lg.options.appendFile then "a+" else "w+")]
    ∧ fileWrites (run b env ⟨g, lg⟩ ((c :: cs).map Call.op)).2
        = (c :: cs).map (fun c2 =>
            (c.readings.fd, lg.category ++ ": " ++ b.format c2.args ++ "\n")) := by
  obtain ⟨h1, h2⟩ := run_opens_once_of_truthy_handle b env g lg c cs hnode hpath hw hfd hacc
  refine ⟨h1, ?_⟩
  rw [h2]
  apply List.map_congr_left
  intro c2 _
  rw [unformattedText_plain g lg _ _ _ hnode hts hlv]

/-- C6 at the failing input: Node mode, global logfile "app.log",
`create("daemon", {showTimestamp: false, showLevel: false}).error("boom %d", 5)`, with
`fs.openSync` returning descriptor 0. The call is accepted and opens the file, but no line
is written to it; with descriptor 3 returned instead, the line "daemon: boom 5" followed by
a newline goes to descriptor 3. -/
theorem descriptor_zero_loses_line :
    _shouldLog sampleBuiltins noEnv sampleFileGlobals (Value.str ERROR) = true
    ∧ fileOpens (run sampleBuiltins noEnv ⟨sampleFileGlobals, daemonPlain⟩
        [Op.call Method.error [Value.str "boom %d", Value.num 5]
          { sampleReadings with fd := 0 }]).2
      = [("app.log", "a+")]
    ∧ fileWrites (run sampleBuiltins noEnv ⟨sampleFileGlobals, daemonPlain⟩
        [Op.call Method.error [Value.str "boom %d", Value.num 5]
          { sampleReadings with fd := 0 }]).2
      = []
    ∧ fileWrites (run sampleBuiltins noEnv ⟨sampleFileGlobals, daemonPlain⟩
        [Op.call Method.error [Value.str "boom %d", Value.num 5] sampleReadings]).2
      = [(3, "daemon: boom 5\n")] := by
  decide

/-- C9 at the failing input: a logger with `filename: "debug.log"` in Node mode, two
accepted calls, `fs.openSync` returning descriptor 0. The file is opened by both calls and
nothing is written to it; with descriptor 3 returned instead, it is opened once and both
lines go to descriptor 3. -/
theorem descriptor_zero_reopens :
    fileOpens (run sampleBuiltins noEnv ⟨Globals.load true, daemonFile⟩
        [Op.call Method.info [Value.str "a"] { sampleReadings with fd := 0 },
         Op.call Method.info [Value.str "b"] { sampleReadings with fd := 0 }]).2
      = [("debug.log", "a+"), ("debug.log", "a+")]
    ∧ fileWrites (run sampleBuiltins noEnv ⟨Globals.load true, daemonFile⟩
        [Op.call Method.info [Value.str "a"] { sampleReadings with fd := 0 },
         Op.call Method.info [Value.str "b"] { sampleReadings with fd := 0 }]).2
      = []
    ∧ fileOpens (run sampleBuiltins noEnv ⟨Globals.load true, daemonFile⟩
        [Op.call Method.info [Value.str "a"] sampleReadings,
         Op.call Method.info [Value.str "b"] sampleReadings]).2
      = [("debug.log", "a+")]
    ∧ fileWrites (run sampleBuiltins noEnv ⟨Globals.load true, daemonFile⟩
        [Op.call Method.info [Value.str "a"] sampleReadings,
         Op.call Method.info [Value.str "b"] sampleReadings]).2
      = [(3, "2020-01-01T00:00:00.000Z [INFO]  daemon: a\n"),
         (3, "2020-01-01T00:00:00.000Z [INFO]  daemon: b\n")] := by
  decide

end Logplease
